import Mathlib

/-!
# hdr10plus_tool: the C API example `capi_json_file.c`

The example program parses a reference JSON document through the
`libhdr10plus-rs` C API, asks for the parse error, and when there is none
writes the complete AV1 metadata OBU payload of frame 0, checks its length,
and releases what it was given.

The development has two parts.

* `CapiJsonFile`: a shallow embedding of `main`.  The library functions are
  declared in `libhdr10plus-rs/hdr10plus.h`; their behaviour is a parameter
  (`Library`), threaded through an explicit library state, so that every
  theorem about `main` holds for every behaviour of the library.  `main`
  yields the ordered list of the calls it made, with their arguments and
  results, and how it ended.
* `HandleLayer`: the opaque handle layer of the library, which is not part
  of the example; it is modelled from the specification.
-/

namespace CapiJsonFile

/-- Modelled from the spec: the declaration of `Hdr10PlusRsData` lives in
`libhdr10plus-rs/hdr10plus.h`; it is the "owned byte buffer" of the boundary
API, a byte pointer with its length.  The example reads only `len`. -/
structure Hdr10PlusRsData where
  data : List Nat
  len : Nat
  deriving DecidableEq, Repr

/-- A `Hdr10PlusRsJsonOpaque *`: the example never looks inside the handle and
never tests it, it only passes the pointer value on. -/
abbrev JsonHandle := Nat

/-- The five library functions called by `main`, over a library state `σ`.
A nullable `const char *` result is an `Option String`, a nullable
`const Hdr10PlusRsData *` result is an `Option Hdr10PlusRsData`. -/
structure Library (σ : Type) where
  hdr10plus_rs_parse_json : String → σ → JsonHandle × σ
  hdr10plus_rs_json_get_error : JsonHandle → σ → Option String × σ
  hdr10plus_rs_write_av1_metadata_obu_t35_complete :
    JsonHandle → Nat → σ → Option Hdr10PlusRsData × σ
  hdr10plus_rs_data_free : Hdr10PlusRsData → σ → σ
  hdr10plus_rs_json_free : JsonHandle → σ → σ

/-- What `main` does that can be observed, in program order. -/
inductive Event where
  | parse_json (path : String) (ret : JsonHandle)
  | json_get_error (handle : JsonHandle) (ret : Option String)
  | printf (out : String)
  | json_free (handle : JsonHandle)
  | write_av1_metadata_obu_t35_complete (handle : JsonHandle) (frame : Nat)
      (ret : Option Hdr10PlusRsData)
  | read_len (payload : Hdr10PlusRsData)
  | assert_eval (holds : Bool)
  | data_free (payload : Hdr10PlusRsData)
  deriving DecidableEq, Repr

/-- How an execution of `main` ends: it returns a status, or a failed
`assert` aborts the process. -/
inductive Outcome where
  | returned (status : Int)
  | aborted
  deriving DecidableEq, Repr

/-- One execution of `main`. -/
structure Run (σ : Type) where
  trace : List Event
  outcome : Outcome
  final : σ

/-- The string literal of line 9. -/
def path : String := "../../assets/hevc_tests/regular_metadata.json"

/-- Lines 22 to 26 and line 28: the body of `main` once the payload pointer is
known.  `assert` is the macro of `assert.h`: with `NDEBUG` defined it expands
to nothing and `payload->len` is not evaluated, otherwise a false condition
aborts.  Control reaching the closing brace of `main` returns 0. -/
def after_write {σ : Type} (ndebug : Bool) (lib : Library σ) (hdr10plus_json : JsonHandle)
    (payload : Option Hdr10PlusRsData) (t : List Event) (s : σ) : Run σ :=
  match payload with
  | some p =>
    if ndebug then
      { trace := t ++ [Event.data_free p, Event.json_free hdr10plus_json]
        outcome := Outcome.returned 0
        final := lib.hdr10plus_rs_json_free hdr10plus_json (lib.hdr10plus_rs_data_free p s) }
    else if p.len = 49 then
      { trace := t ++ [Event.read_len p, Event.assert_eval true, Event.data_free p,
                       Event.json_free hdr10plus_json]
        outcome := Outcome.returned 0
        final := lib.hdr10plus_rs_json_free hdr10plus_json (lib.hdr10plus_rs_data_free p s) }
    else
      { trace := t ++ [Event.read_len p, Event.assert_eval false]
        outcome := Outcome.aborted
        final := s }
  | none =>
    { trace := t ++ [Event.json_free hdr10plus_json]
      outcome := Outcome.returned 0
      final := lib.hdr10plus_rs_json_free hdr10plus_json s }

/-- Lines 14 to 21: the branch on the error pointer. -/
def after_get_error {σ : Type} (ndebug : Bool) (lib : Library σ) (hdr10plus_json : JsonHandle)
    (error : Option String) (t : List Event) (s : σ) : Run σ :=
  match error with
  | some msg =>
    { trace := t ++ [Event.printf (msg ++ "\n"), Event.json_free hdr10plus_json]
      outcome := Outcome.returned 1
      final := lib.hdr10plus_rs_json_free hdr10plus_json s }
  | none =>
    let w := lib.hdr10plus_rs_write_av1_metadata_obu_t35_complete hdr10plus_json 0 s
    after_write ndebug lib hdr10plus_json w.1
      (t ++ [Event.write_av1_metadata_obu_t35_complete hdr10plus_json 0 w.1]) w.2

/-- The function `main` of `examples/capi_json_file.c`, run against the library
`lib` started in state `s0`. -/
def main {σ : Type} (ndebug : Bool) (lib : Library σ) (s0 : σ) : Run σ :=
  let r := lib.hdr10plus_rs_parse_json path s0
  let hdr10plus_json := r.1
  let e := lib.hdr10plus_rs_json_get_error hdr10plus_json r.2
  let error := e.1
  after_get_error ndebug lib hdr10plus_json error
    [Event.parse_json path hdr10plus_json, Event.json_get_error hdr10plus_json error] e.2

/-! ### Observations on a trace -/

/-- The calls of `hdr10plus_rs_write_av1_metadata_obu_t35_complete`:
handle, frame index and result, in order. -/
def writeCalls : List Event → List (JsonHandle × Nat × Option Hdr10PlusRsData)
  | [] => []
  | Event.write_av1_metadata_obu_t35_complete h i ret :: t => (h, i, ret) :: writeCalls t
  | _ :: t => writeCalls t

/-- The buffers passed to `hdr10plus_rs_data_free`, in order. -/
def freedBuffers : List Event → List Hdr10PlusRsData
  | [] => []
  | Event.data_free p :: t => p :: freedBuffers t
  | _ :: t => freedBuffers t

/-- The buffers whose `len` field was read, in order. -/
def lenReads : List Event → List Hdr10PlusRsData
  | [] => []
  | Event.read_len p :: t => p :: lenReads t
  | _ :: t => lenReads t

/-- The values of the evaluated assertions, in order. -/
def assertions : List Event → List Bool
  | [] => []
  | Event.assert_eval b :: t => b :: assertions t
  | _ :: t => assertions t

/-- A stateless library: the parse gives handle 7, the error and the payload
are fixed. -/
def constLibrary (error : Option String) (payload : Option Hdr10PlusRsData) : Library Unit where
  hdr10plus_rs_parse_json := fun _ s => (7, s)
  hdr10plus_rs_json_get_error := fun _ s => (error, s)
  hdr10plus_rs_write_av1_metadata_obu_t35_complete := fun _ _ s => (payload, s)
  hdr10plus_rs_data_free := fun _ s => s
  hdr10plus_rs_json_free := fun _ s => s

end CapiJsonFile

namespace HandleLayer

/-- Modelled from the spec: the opaque handle layer of the library (spec §4.4,
§6) is not part of the example.  A handle owns a parsed document, one metadata
model per frame, or its error; the mapper "stops at first failure and the
resulting document carries only the error; no metadata is exposed".  The
per-frame model is the type parameter `Frame`. -/
structure Handle (Frame : Type) where
  document : Option (List Frame)
  error : Option String

/-- Modelled from the spec: `parse(source) -> Handle|Error` of the missing
handle layer.  The JSON mapper is the parameter `mapper`; its result is a
document or a descriptive error. -/
def parse {Frame Source : Type} (mapper : Source → Except String (List Frame))
    (source : Source) : Handle Frame :=
  match mapper source with
  | Except.ok frames => { document := some frames, error := none }
  | Except.error msg => { document := none, error := some msg }

/-- Modelled from the spec: `get_error(Handle) -> string|none` of the missing
handle layer. -/
def get_error {Frame : Type} (h : Handle Frame) : Option String :=
  h.error

/-- Modelled from the spec: the encode and wrap stages of the missing library
for one frame: the payload encoder, then the T.35/OBU wrapper in the mode
`complete`, which "propagates encoder errors unchanged".  Both stages are
parameters. -/
def encode_frame {Frame : Type} (encode : Frame → Except String (List Nat))
    (wrap : Bool → List Nat → Except String (List Nat)) (complete : Bool) (frame : Frame) :
    Except String (List Nat) :=
  match encode frame with
  | Except.ok raw => wrap complete raw
  | Except.error msg => Except.error msg

/-- Modelled from the spec:
`produce_payload(Handle, frame_index, complete) -> bytes|none` of the missing
handle layer, as a step on the handle.  On a handle in error state the call is
a no-op returning none.  Otherwise the frame is looked up (`IndexOutOfBounds`
past the frame count), encoded and wrapped; "failure is communicated via
null/none return plus an inspectable error string on the handle". -/
def produce_payload {Frame : Type} (encode : Frame → Except String (List Nat))
    (wrap : Bool → List Nat → Except String (List Nat)) (h : Handle Frame)
    (frame_index : Nat) (complete : Bool) : Handle Frame × Option (List Nat) :=
  match h.error with
  | some _ => (h, none)
  | none =>
    match h.document with
    | none => (h, none)
    | some frames =>
      match frames.get? frame_index with
      | none => ({ h with error := some "IndexOutOfBounds" }, none)
      | some frame =>
        match encode_frame encode wrap complete frame with
        | Except.ok bytes => (h, some bytes)
        | Except.error msg => ({ h with error := some msg }, none)

/-- A mapper for the concrete cases: a source is a list of numbers, one per
frame; the empty source is an error. -/
def sampleMapper (source : List Nat) : Except String (List Nat) :=
  if source = [] then Except.error "MissingField" else Except.ok source

/-- An encoder for the concrete cases: two bytes per frame, the frame number
split big-endian; numbers past 16 bits are refused. -/
def sampleEncode (frame : Nat) : Except String (List Nat) :=
  if frame < 65536 then Except.ok [frame / 256, frame % 256] else Except.error "EncodeOverflow"

/-- A wrapper for the concrete cases: the raw mode puts the country code in
front, the complete mode a header byte, the size and a type byte as well. -/
def sampleWrap (complete : Bool) (raw : List Nat) : Except String (List Nat) :=
  if complete then Except.ok ([42, raw.length + 2, 4, 181] ++ raw) else Except.ok (181 :: raw)

end HandleLayer

/-! ## Theorems about `main` -/

namespace CapiJsonFile

/-- Every execution of `main` has one of five shapes: the error path, the null
payload, a payload with the assertion compiled out, a payload of length 49,
and a payload of another length, where the assertion aborts. -/
theorem main_shape {σ : Type} (ndebug : Bool) (lib : Library σ) (s0 : σ) :
    ∃ h,
      (∃ msg, (main ndebug lib s0).trace =
          [Event.parse_json path h, Event.json_get_error h (some msg),
           Event.printf (msg ++ "\n"), Event.json_free h] ∧
        (main ndebug lib s0).outcome = Outcome.returned 1) ∨
      ((main ndebug lib s0).trace =
          [Event.parse_json path h, Event.json_get_error h none,
           Event.write_av1_metadata_obu_t35_complete h 0 none, Event.json_free h] ∧
        (main ndebug lib s0).outcome = Outcome.returned 0) ∨
      (∃ p, ndebug = true ∧ (main ndebug lib s0).trace =
          [Event.parse_json path h, Event.json_get_error h none,
           Event.write_av1_metadata_obu_t35_complete h 0 (some p), Event.data_free p,
           Event.json_free h] ∧
        (main ndebug lib s0).outcome = Outcome.returned 0) ∨
      (∃ p, ndebug = false ∧ p.len = 49 ∧ (main ndebug lib s0).trace =
          [Event.parse_json path h, Event.json_get_error h none,
           Event.write_av1_metadata_obu_t35_complete h 0 (some p), Event.read_len p,
           Event.assert_eval true, Event.data_free p, Event.json_free h] ∧
        (main ndebug lib s0).outcome = Outcome.returned 0) ∨
      (∃ p, ndebug = false ∧ p.len ≠ 49 ∧ (main ndebug lib s0).trace =
          [Event.parse_json path h, Event.json_get_error h none,
           Event.write_av1_metadata_obu_t35_complete h 0 (some p), Event.read_len p,
           Event.assert_eval false] ∧
        (main ndebug lib s0).outcome = Outcome.aborted) := by
  refine ⟨(lib.hdr10plus_rs_parse_json path s0).1, ?_⟩
  unfold main
  simp only []
  cases he : (lib.hdr10plus_rs_json_get_error (lib.hdr10plus_rs_parse_json path s0).1
      (lib.hdr10plus_rs_parse_json path s0).2).1 with
  | some msg => left; exact ⟨msg, by simp [after_get_error]⟩
  | none =>
    right
    simp only [after_get_error]
    cases hw : (lib.hdr10plus_rs_write_av1_metadata_obu_t35_complete
        (lib.hdr10plus_rs_parse_json path s0).1 0
        (lib.hdr10plus_rs_json_get_error (lib.hdr10plus_rs_parse_json path s0).1
          (lib.hdr10plus_rs_parse_json path s0).2).2).1 with
    | none => left; simp [after_write]
    | some p =>
      right
      cases ndebug with
      | true => left; exact ⟨p, by simp [after_write]⟩
      | false =>
        right
        by_cases hl : p.len = 49
        · left; exact ⟨p, by simp [after_write, hl]⟩
        · right; exact ⟨p, by simp [after_write, hl]⟩

/-- C8: on every execution of `main` the write operation is invoked at most
once; every invocation has frame index 0 and comes after a call of
`hdr10plus_rs_json_get_error` on the same handle that returned null; and when
`hdr10plus_rs_json_get_error` returned a message the write operation is not
invoked. -/
theorem write_only_after_null_error {σ : Type} (ndebug : Bool) (lib : Library σ) (s0 : σ) :
    (writeCalls (main ndebug lib s0).trace).length ≤ 1 ∧
    (∀ h i ret, (h, i, ret) ∈ writeCalls (main ndebug lib s0).trace →
      i = 0 ∧ ∃ pre post, (main ndebug lib s0).trace
          = pre ++ Event.write_av1_metadata_obu_t35_complete h i ret :: post ∧
        Event.json_get_error h none ∈ pre) ∧
    ((∃ h msg, Event.json_get_error h (some msg) ∈ (main ndebug lib s0).trace) →
      writeCalls (main ndebug lib s0).trace = []) := by
  obtain ⟨g, hs⟩ := main_shape ndebug lib s0
  refine ⟨?_, ?_, ?_⟩
  · rcases hs with ⟨msg, ht, -⟩ | ⟨ht, -⟩ | ⟨q, -, ht, -⟩ | ⟨q, -, -, ht, -⟩ | ⟨q, -, -, ht, -⟩ <;>
      simp [ht, writeCalls]
  · intro h i ret hw
    rcases hs with ⟨msg, ht, -⟩ | ⟨ht, -⟩ | ⟨q, -, ht, -⟩ | ⟨q, -, -, ht, -⟩ | ⟨q, -, -, ht, -⟩
    · simp [ht, writeCalls] at hw
    all_goals
      simp [ht, writeCalls] at hw
      obtain ⟨rfl, rfl, rfl⟩ := hw
      refine ⟨rfl, [Event.parse_json path h, Event.json_get_error h none],
        List.drop 3 (main ndebug lib s0).trace, ?_, by simp⟩
      rw [ht]
      rfl
  · rintro ⟨h, msg, hm⟩
    rcases hs with ⟨msg, ht, -⟩ | ⟨ht, -⟩ | ⟨q, -, ht, -⟩ | ⟨q, -, -, ht, -⟩ | ⟨q, -, -, ht, -⟩ <;>
      simp [ht, writeCalls] at hm ⊢

/-- C8, a concrete case: with the parse error "bad" the write operation is not
invoked. -/
theorem write_only_after_null_error_witness :
    writeCalls (main false (constLibrary (some "bad") none) ()).trace = [] :=
  (write_only_after_null_error false (constLibrary (some "bad") none) ()).2.2
    ⟨7, "bad", by decide⟩

/-- C9: when the write operation returned null, `main` reads no `len`,
evaluates no assertion, frees no buffer and returns 0; a produced payload of
length 49 gives the status 0 as well; and every `len` read and every
assertion evaluated is on a buffer the write operation returned, the assertion
being that its length is 49. -/
theorem null_payload_passed_over {σ : Type} (ndebug : Bool) (lib : Library σ) (s0 : σ) :
    ((∃ h i, (h, i, none) ∈ writeCalls (main ndebug lib s0).trace) →
      lenReads (main ndebug lib s0).trace = [] ∧
      assertions (main ndebug lib s0).trace = [] ∧
      freedBuffers (main ndebug lib s0).trace = [] ∧
      (main ndebug lib s0).outcome = Outcome.returned 0) ∧
    (∀ h i p, (h, i, some p) ∈ writeCalls (main ndebug lib s0).trace → p.len = 49 →
      (main ndebug lib s0).outcome = Outcome.returned 0) ∧
    ((lenReads (main ndebug lib s0).trace ≠ [] ∨ assertions (main ndebug lib s0).trace ≠ []) →
      ∃ h i p, (h, i, some p) ∈ writeCalls (main ndebug lib s0).trace ∧
        lenReads (main ndebug lib s0).trace = [p] ∧
        assertions (main ndebug lib s0).trace = [decide (p.len = 49)]) := by
  obtain ⟨g, hs⟩ := main_shape ndebug lib s0
  refine ⟨?_, ?_, ?_⟩
  · rintro ⟨h, i, hw⟩
    rcases hs with ⟨msg, ht, ho⟩ | ⟨ht, ho⟩ | ⟨q, -, ht, ho⟩ | ⟨q, -, -, ht, ho⟩ | ⟨q, -, -, ht, ho⟩ <;>
      simp [ht, ho, writeCalls, lenReads, assertions, freedBuffers] at hw ⊢
  · intro h i p hw hl
    rcases hs with ⟨msg, ht, ho⟩ | ⟨ht, ho⟩ | ⟨q, -, ht, ho⟩ | ⟨q, -, -, ht, ho⟩ | ⟨q, -, hq, ht, ho⟩
    · simp [ht, writeCalls] at hw
    · exact ho
    · exact ho
    · exact ho
    · simp [ht, writeCalls] at hw
      exact absurd (hw.2.2 ▸ hl) hq
  · intro hr
    rcases hs with ⟨msg, ht, ho⟩ | ⟨ht, ho⟩ | ⟨q, -, ht, ho⟩ | ⟨q, -, hq, ht, ho⟩ | ⟨q, -, hq, ht, ho⟩
    · simp [ht, lenReads, assertions] at hr
    · simp [ht, lenReads, assertions] at hr
    · simp [ht, lenReads, assertions] at hr
    · exact ⟨g, 0, q, by simp [ht, writeCalls], by simp [ht, lenReads],
        by simp [ht, assertions, hq]⟩
    · exact ⟨g, 0, q, by simp [ht, writeCalls], by simp [ht, lenReads],
        by simp [ht, assertions, hq]⟩

/-- C9, a concrete case: with no error and a null payload `main` reads and
frees nothing and returns 0. -/
theorem null_payload_passed_over_witness :
    lenReads (main false (constLibrary none none) ()).trace = [] ∧
    assertions (main false (constLibrary none none) ()).trace = [] ∧
    freedBuffers (main false (constLibrary none none) ()).trace = [] ∧
    (main false (constLibrary none none) ()).outcome = Outcome.returned 0 :=
  (null_payload_passed_over false (constLibrary none none) ()).1 ⟨7, 0, by decide⟩

end CapiJsonFile

/-! ## Theorems about the modelled handle layer -/

namespace HandleLayer

/-- C2: on every handle in error state, with message `msg`, a payload
production call at any frame index and in either mode returns none, and
`get_error` on the handle after the call still returns `msg`. -/
theorem error_isolation {Frame : Type} (encode : Frame → Except String (List Nat))
    (wrap : Bool → List Nat → Except String (List Nat)) (h : Handle Frame) (msg : String)
    (herr : get_error h = some msg) (frame_index : Nat) (complete : Bool) :
    (produce_payload encode wrap h frame_index complete).2 = none ∧
    get_error (produce_payload encode wrap h frame_index complete).1 = some msg := by
  unfold get_error at herr
  simp [produce_payload, herr, get_error]

/-- C2, a concrete case: the empty source fails to parse with "MissingField";
producing frame 0 gives none and the error stays. -/
theorem error_isolation_witness :
    (produce_payload sampleEncode sampleWrap (parse sampleMapper []) 0 true).2 = none ∧
    get_error (produce_payload sampleEncode sampleWrap (parse sampleMapper []) 0 true).1
      = some "MissingField" :=
  error_isolation sampleEncode sampleWrap (parse sampleMapper []) "MissingField" rfl 0 true

end HandleLayer
